import Mathlib

/-!
Verification of the wp-agent tool-dispatch and safety layer.

The Python source (`src/agent/app.py`, `src/config.py`) is shallowly embedded:
pure helpers become Lean functions, the process state (filesystem, external
process results, invocation log) becomes an explicit `World` record threaded
through each handler, and Python exceptions become `Except` values carrying
the exact message strings the source builds.
-/

namespace WpAgent

/-! ## Python string primitives -/

/-- Whitespace characters removed by Python `str.strip()`. -/
def pyIsSpace (c : Char) : Bool :=
  c == ' ' || c == '\t' || c == '\n' || c == '\r' || c == Char.ofNat 11 || c == Char.ofNat 12

/-- Model of Python `str.strip()`: removes leading and trailing whitespace. -/
def pyStrip (s : String) : String :=
  ⟨((s.data.dropWhile pyIsSpace).reverse.dropWhile pyIsSpace).reverse⟩

/-- Model of Python `a or b` on strings: `b` when `a` is empty (falsy), else `a`. -/
def pyOr (a b : String) : String :=
  if a = "" then b else a

/-- Model of Python `s.startswith(p)`: `p` is a prefix of `s`. -/
def pyStartswith (s p : String) : Bool :=
  p.data.isPrefixOf s.data

/-- Model of Python `str.capitalize()`: first character upper-cased, rest lower-cased. -/
def pyCapitalize (s : String) : String :=
  match s.data with
  | [] => ""
  | c :: cs => ⟨c.toUpper :: cs.map Char.toLower⟩

/-- Model of Python `file_path_str.lstrip('/\\')` (`app.py` line 202):
drops every leading `'/'` or `'\'` character. -/
def stripSeps : List Char → List Char
  | [] => []
  | c :: cs => if c = '/' ∨ c = '\\' then stripSeps cs else c :: cs

/-! ## POSIX path primitives (`os.path`) -/

/-- Split a character list on `'/'` (as `str.split('/')` does: a path with `n`
separators yields `n + 1` segments, empty segments included). -/
def splitSegs : List Char → List (List Char)
  | [] => [[]]
  | c :: cs =>
    if c = '/' then [] :: splitSegs cs
    else
      match splitSegs cs with
      | [] => [[c]]
      | s :: rest => (c :: s) :: rest

/-- Join segments with `'/'` (as `'/'.join`). -/
def joinSegs : List (List Char) → List Char
  | [] => []
  | [s] => s
  | s :: rest => s ++ '/' :: joinSegs rest

/-- The component loop of `posixpath.normpath` for a relative path
(`initial_slashes = 0`): drop empty and `'.'` segments, keep a `'..'` when the
stack is empty or already ends in `'..'`, otherwise pop. -/
def normLoop (acc : List (List Char)) : List (List Char) → List (List Char)
  | [] => acc
  | seg :: rest =>
    if seg = [] ∨ seg = ['.'] then normLoop acc rest
    else if seg ≠ ['.', '.'] then normLoop (acc ++ [seg]) rest
    else if acc = [] ∨ acc.getLast? = some ['.', '.'] then normLoop (acc ++ [seg]) rest
    else normLoop acc.dropLast rest

/-- Model of `os.path.normpath` on POSIX for a relative input (the validator
always strips leading separators first, so its argument never starts with
`'/'`); an empty normalized result is `"."`, as in Python. -/
def normpathPosix (s : String) : String :=
  let out := joinSegs (normLoop [] (splitSegs s.data))
  if out = [] then "." else ⟨out⟩

/-- The component loop of absolute-path resolution: empty and `'.'` segments
vanish, `'..'` pops the last resolved component (staying at the root when
there is none), other segments are appended. -/
def realLoop (acc : List (List Char)) : List (List Char) → List (List Char)
  | [] => acc
  | seg :: rest =>
    if seg = [] ∨ seg = ['.'] then realLoop acc rest
    else if seg = ['.', '.'] then realLoop acc.dropLast rest
    else realLoop (acc ++ [seg]) rest

/-- Model of `os.path.realpath` on an absolute path, for a filesystem that
contains no symbolic links: with no links to expand, `realpath` resolves
`'.'` and `'..'` components lexically (non-strict mode resolves nonexistent
components the same way), and `'..'` above the root stays at the root. -/
def realpathNoSymlinks (s : String) : String :=
  ⟨'/' :: joinSegs (realLoop [] (splitSegs s.data))⟩

/-- `os.path.dirname` on POSIX: the text before the last `'/'`, with trailing
slashes stripped unless the result is all slashes. -/
def dirname (p : String) : String :=
  let pre := (p.data.reverse.dropWhile (fun c => c != '/')).reverse
  if pre = [] then ""
  else if pre.all (· == '/') then ⟨pre⟩
  else ⟨(pre.reverse.dropWhile (fun c => c == '/')).reverse⟩

/-! ## Configuration (`src/config.py`) -/

/-- `Config.WP_PATH` (`config.py` line 18). -/
def WP_PATH : String := "/var/www/html"

/-- `Config.SAFE_BASE_PATH = os.path.realpath(WP_PATH)` (`config.py` line 19);
`/var/www/html` is not behind a symbolic link, so `realpath` is the identity. -/
def SAFE_BASE_PATH : String := "/var/www/html"

/-- The spec's notion of an authorized resolved path: equal to the sandbox
root, or a descendant of it (strictly below the root directory). This is the
property the spec asserts `_validate_file_path` enforces; it is stated from
the spec's words for comparison against the code's actual check. -/
def specUnderRoot (p : String) : Bool :=
  p == SAFE_BASE_PATH || pyStartswith p (SAFE_BASE_PATH ++ "/")

/-! ## Path validation (`_validate_file_path`, `app.py` lines 199-211) -/

/-- `_validate_file_path`: strip leading separators, `normpath`, join under
`SAFE_BASE_PATH`, `realpath`, then allow iff the resolved path `startswith`
`SAFE_BASE_PATH` (a plain string-prefix test with no trailing separator).
The raised `PermissionError` becomes `Except.error` with the exact message. -/
def validate_file_path (raw : String) : Except String String :=
  let rel := normpathPosix ⟨stripSeps raw.data⟩
  let absP := SAFE_BASE_PATH ++ "/" ++ rel
  let realP := realpathNoSymlinks absP
  if pyStartswith realP SAFE_BASE_PATH then .ok realP
  else .error ("File access denied: Path '" ++ raw ++ "' is outside the allowed directory '"
    ++ WP_PATH ++ "'.")

/-! ## JSON values

Request bodies and WP-CLI JSON output are Python values produced by
`json.loads`: `None`, `bool`, numbers (modelled as integers; no claim involves
a float), `str`, `list`, `dict`. -/

inductive Json where
  | null
  | bool (b : Bool)
  | num (n : Int)
  | str (s : String)
  | arr (xs : List Json)
  | obj (fields : List (String × Json))

/-- Python truthiness of a JSON value (`if not data:` and friends). -/
def jsonTruthy : Json → Bool
  | .null => false
  | .bool b => b
  | .num n => n != 0
  | .str s => !s.isEmpty
  | .arr xs => !xs.isEmpty
  | .obj fields => !fields.isEmpty

/-- `value is None` in Python. -/
def Json.isNull : Json → Bool
  | .null => true
  | _ => false

/-- `type(value).__name__` for the values `json.loads` can produce. -/
def jsonTypeName : Json → String
  | .null => "NoneType"
  | .bool _ => "bool"
  | .num _ => "int"
  | .str _ => "str"
  | .arr _ => "list"
  | .obj _ => "dict"

/-- `d.get(key)` on a Python dict, modelled as first-match lookup (dicts built
by `json.loads` have unique keys). -/
def pyDictGet : List (String × Json) → String → Option Json
  | [], _ => none
  | (k, v) :: rest, key => if k = key then some v else pyDictGet rest key

/-- Extract the string out of a `Json.str`; only applied after `get_tool_arg`
has type-checked the value against `str`. -/
def jsonAsStr : Json → String
  | .str s => s
  | _ => ""

/-- `str(v)` for the scalar values the source passes to `str()` / f-strings. -/
def pyScalarStr : Json → String
  | .null => "None"
  | .bool true => "True"
  | .bool false => "False"
  | .num n => toString n
  | .str s => s
  | .arr _ => ""
  | .obj _ => ""

/-! ## Filesystem state

Only what the file tools observe: a set of directories and a map from file
path to content, both keyed by resolved absolute path. -/

/-- First-match lookup in the file table. -/
def fsGet : List (String × String) → String → Option String
  | [], _ => none
  | (q, d) :: rest, p => if q = p then some d else fsGet rest p

/-- Replace the content at a key, or append a new entry (the effect of
`open(p, 'w')` + `write`). -/
def setPairs : List (String × String) → String → String → List (String × String)
  | [], p, c => [(p, c)]
  | (q, d) :: rest, p, c => if q = p then (q, c) :: rest else (q, d) :: setPairs rest p c

/-- Append to the content at a key, creating it when absent (the effect of
`open(p, 'a')` + `write`). -/
def appendPairs : List (String × String) → String → String → List (String × String)
  | [], p, c => [(p, c)]
  | (q, d) :: rest, p, c => if q = p then (q, d ++ c) :: rest else (q, d) :: appendPairs rest p c

structure FS where
  dirs : List String
  files : List (String × String)

def FS.isDir (fs : FS) (p : String) : Bool := fs.dirs.contains p

def FS.lookupFile (fs : FS) (p : String) : Option String := fsGet fs.files p

def FS.isFile (fs : FS) (p : String) : Bool := (fs.lookupFile p).isSome

def FS.setFile (fs : FS) (p c : String) : FS := ⟨fs.dirs, setPairs fs.files p c⟩

def FS.appendFile (fs : FS) (p c : String) : FS := ⟨fs.dirs, appendPairs fs.files p c⟩

/-! ## Process state -/

/-- The observable outcome of one `subprocess.run` invocation
(`capture_output=True, text=True`). -/
structure ExecResult where
  returncode : Int
  stdout : String
  stderr : String

/-- The whole state a request handler can observe or change: the sandbox
filesystem, an oracle giving the result of the `n`-th external process
invocation with a given argv, an oracle for `json.loads` (stdlib, treated as
an opaque parser), an oracle for `json.dumps`, and the log of argvs invoked
so far (its length counts how often an external process was actually run). -/
structure World where
  fs : FS
  exec : Nat → List String → ExecResult
  parseJson : String → Option Json
  dumps : Json → String
  calls : List (List String)

/-- `str(e)` of a `subprocess.CalledProcessError` (raised by `check=True`). -/
def calledProcessMsg (argv : List String) (rc : Int) : String :=
  "Command '[" ++ String.intercalate ", " (argv.map (fun a => "'" ++ a ++ "'"))
    ++ "]' returned non-zero exit status " ++ toString rc ++ "."

/-- A bare `subprocess.run(argv, capture_output=True, text=True, check=True)`
as used directly by `get_system_information`: nonzero exit raises
`CalledProcessError`, success yields stdout. -/
def runSubprocess (w : World) (argv : List String) : World × Except String String :=
  let r := w.exec w.calls.length argv
  let w' := { w with calls := w.calls ++ [argv] }
  if r.returncode = 0 then (w', .ok r.stdout)
  else (w', .error (calledProcessMsg argv r.returncode))

/-- Output of `run_wp_cli_command`: raw text, or a decoded JSON value. -/
inductive WpOut where
  | text (s : String)
  | json (j : Json)

def wpText : WpOut → String
  | .text s => s
  | .json _ => ""

/-- The fixed base argv of every WP-CLI call (`app.py` line 91). -/
def wpArgv (args : List String) : List String :=
  ["wp", "--path=" ++ WP_PATH, "--allow-root"] ++ args

/-- `run_wp_cli_command` (`app.py` lines 89-109). One external invocation per
call — there is no breaker or cache in front of it. Nonzero exit raises
`WP-CLI Error: <stderr or stdout, stripped>`; with `decode_json`, empty
stripped stdout yields `{}` without parsing, and unparseable stdout raises
`WP-CLI JSON Decode Error: <output>`. -/
def run_wp_cli_command (w : World) (args : List String) (decode_json : Bool) :
    World × Except String WpOut :=
  let command := wpArgv args
  let r := w.exec w.calls.length command
  let w' := { w with calls := w.calls ++ [command] }
  if r.returncode = 0 then
    let output := pyStrip r.stdout
    if decode_json then
      if output = "" then (w', .ok (.json (.obj [])))
      else
        match w.parseJson output with
        | some j => (w', .ok (.json j))
        | none => (w', .error ("WP-CLI JSON Decode Error: " ++ output))
    else (w', .ok (.text output))
  else (w', .error ("WP-CLI Error: " ++ pyOr (pyStrip r.stderr) (pyStrip r.stdout)))

/-! ## Argument extraction (`get_tool_arg`, `app.py` lines 112-122) -/

inductive TypeTag where
  | str

def typeName : TypeTag → String
  | .str => "str"

def typeNameOpt : Option TypeTag → String
  | some t => typeName t
  | none => ""

/-- `isinstance(value, arg_type)` for the one tag the source uses. -/
def typeMatches : TypeTag → Json → Bool
  | .str, .str _ => true
  | .str, _ => false

/-- `data.get('args', {})`, restricted to the dict case (when a request
carries a non-dict `args` value Python raises a `TypeError` from the `in`
test, which every handler converts to an error envelope; no claim exercises
that corner and it is collapsed to the empty-dict behavior here). -/
def requestArgs : Json → List (String × Json)
  | .obj fields =>
    match pyDictGet fields "args" with
    | some (.obj a) => a
    | _ => []
  | _ => []

/-- `value is not None and arg_type is not None and not isinstance(...)`. -/
def typeMismatch (value : Json) (arg_type : Option TypeTag) : Bool :=
  match arg_type with
  | none => false
  | some t => !value.isNull && !typeMatches t value

/-- `get_tool_arg`: missing required arguments and `None` required values
raise `ValueError("Missing required argument: <name>")`; a present value of
the wrong runtime type raises the type message; otherwise the provided value
or the default is returned. -/
def get_tool_arg (data : Json) (arg_name : String) (default : Json) (required : Bool)
    (arg_type : Option TypeTag) : Except String Json :=
  let args := requestArgs data
  if (pyDictGet args arg_name).isNone && required then
    .error ("Missing required argument: " ++ arg_name)
  else
    let value := (pyDictGet args arg_name).getD default
    if value.isNull && required && default.isNull then
      .error ("Missing required argument: " ++ arg_name)
    else if typeMismatch value arg_type then
      .error ("Argument '" ++ arg_name ++ "' must be of type " ++ typeNameOpt arg_type
        ++ ", got " ++ jsonTypeName value)
    else .ok value

/-! ## Result envelopes -/

def errEnv (msg : String) : Json :=
  .obj [("status", .str "error"), ("message", .str msg)]

def okMsgEnv (msg : String) : Json :=
  .obj [("status", .str "success"), ("message", .str msg)]

def okDataEnv (d : Json) : Json :=
  .obj [("status", .str "success"), ("data", d)]

/-! ## Tool handlers (`app.py` lines 124-414)

Each handler takes the whole request dict, extracts its arguments via
`get_tool_arg`, and converts every exception (`ValueError` from extraction,
`PermissionError` from path validation, WP-CLI and OS errors) into an error
envelope carrying `str(e)` — the `try/except` blocks wrapping every handler
body mean no exception escapes to the dispatcher. -/

/-- `get_system_information`: `uname -a`, `python3 --version`, then three
WP-CLI calls; the first failure aborts with its message. -/
def get_system_information (w : World) (_data : Json) : World × Json :=
  let (w1, r1) := runSubprocess w ["uname", "-a"]
  match r1 with
  | .error e => (w1, errEnv e)
  | .ok out1 =>
    let (w2, r2) := runSubprocess w1 ["python3", "--version"]
    match r2 with
    | .error e => (w2, errEnv e)
    | .ok out2 =>
      let (w3, r3) := run_wp_cli_command w2 ["cli", "info", "--format=json"] true
      match r3 with
      | .error e => (w3, errEnv e)
      | .ok (.text _) => (w3, errEnv "'str' object has no attribute 'get'")
      | .ok (.json (.arr _)) => (w3, errEnv "'list' object has no attribute 'get'")
      | .ok (.json (.str _)) => (w3, errEnv "'str' object has no attribute 'get'")
      | .ok (.json (.num _)) => (w3, errEnv "'int' object has no attribute 'get'")
      | .ok (.json (.bool _)) => (w3, errEnv "'bool' object has no attribute 'get'")
      | .ok (.json .null) => (w3, errEnv "'NoneType' object has no attribute 'get'")
      | .ok (.json (.obj info3)) =>
        let phpVersion := (pyDictGet info3 "php_version").getD (.str "N/A")
        let (w4, r4) := run_wp_cli_command w3 ["core", "version"] false
        match r4 with
        | .error e => (w4, errEnv e)
        | .ok o4 =>
          let (w5, r5) := run_wp_cli_command w4 ["cli", "version"] false
          match r5 with
          | .error e => (w5, errEnv e)
          | .ok o5 =>
            (w5, okDataEnv (.obj
              [("os_version", .str (pyStrip out1)),
               ("python_version", .str (pyStrip out2)),
               ("php_version", phpVersion),
               ("wordpress_version", .str (wpText o4)),
               ("wp_cli_version", .str (wpText o5))]))

/-- `create_wordpress_post` (`app.py` lines 161-182). Note that `status` and
`post_type` keep `required=True` (the Python default) even though a default
value is supplied, so the first `not in args` test raises when they are
absent — faithfully reproduced. -/
def create_wordpress_post (w : World) (data : Json) : World × Json :=
  match get_tool_arg data "title" .null true (some .str) with
  | .error e => (w, errEnv e)
  | .ok titleJ =>
  match get_tool_arg data "content" .null true (some .str) with
  | .error e => (w, errEnv e)
  | .ok contentJ =>
  match get_tool_arg data "status" (.str "publish") true (some .str) with
  | .error e => (w, errEnv e)
  | .ok statusJ =>
  match get_tool_arg data "post_type" (.str "post") true (some .str) with
  | .error e => (w, errEnv e)
  | .ok postTypeJ =>
    let cmdArgs := ["post", "create",
      "--post_title=" ++ jsonAsStr titleJ,
      "--post_content=" ++ jsonAsStr contentJ,
      "--post_status=" ++ jsonAsStr statusJ,
      "--post_type=" ++ jsonAsStr postTypeJ,
      "--porcelain"]
    let (w', r) := run_wp_cli_command w cmdArgs false
    match r with
    | .error e => (w', errEnv e)
    | .ok o =>
      (w', .obj [("status", .str "success"),
        ("message", .str (pyCapitalize (jsonAsStr postTypeJ)
          ++ " created successfully with ID: " ++ wpText o)),
        ("post_id", .str (wpText o))])

/-- `activate_wordpress_plugin` (`app.py` lines 185-196). -/
def activate_wordpress_plugin (w : World) (data : Json) : World × Json :=
  match get_tool_arg data "plugin_slug" .null true (some .str) with
  | .error e => (w, errEnv e)
  | .ok slugJ =>
    let (w', r) := run_wp_cli_command w ["plugin", "activate", jsonAsStr slugJ] false
    match r with
    | .error e => (w', errEnv e)
    | .ok o => (w', okMsgEnv (wpText o))

/-- `read_file` (`app.py` lines 214-234): validate the path, report
`File not found` when nothing exists there, `Path is not a file` for a
directory, else return the content. -/
def read_file (w : World) (data : Json) : World × Json :=
  match get_tool_arg data "file_path" .null true (some .str) with
  | .error e => (w, errEnv e)
  | .ok fpJ =>
    let fp := jsonAsStr fpJ
    match validate_file_path fp with
    | .error e => (w, errEnv e)
    | .ok target =>
      match w.fs.lookupFile target with
      | some content =>
        (w, .obj [("status", .str "success"), ("file_path", .str fp),
          ("content", .str content)])
      | none =>
        if w.fs.isDir target then (w, errEnv ("Path is not a file: " ++ fp))
        else (w, errEnv ("File not found: " ++ fp))

/-- `edit_file` (`app.py` lines 237-257): validate the path, then
`open(target, 'w')` and write — an in-place truncating overwrite that
creates the file when absent (provided its parent directory exists), with no
backup, no temporary file, no rename and no post-write verification.
`open('w')` fails with `IsADirectoryError` on a directory and
`FileNotFoundError` when the parent directory is missing. -/
def edit_file (w : World) (data : Json) : World × Json :=
  match get_tool_arg data "file_path" .null true (some .str) with
  | .error e => (w, errEnv e)
  | .ok fpJ =>
  match get_tool_arg data "content" .null true (some .str) with
  | .error e => (w, errEnv e)
  | .ok ctJ =>
    let fp := jsonAsStr fpJ
    match validate_file_path fp with
    | .error e => (w, errEnv e)
    | .ok target =>
      if w.fs.isDir target then
        (w, errEnv ("[Errno 21] Is a directory: '" ++ target ++ "'"))
      else if w.fs.isFile target || w.fs.isDir (dirname target) then
        ({ w with fs := w.fs.setFile target (jsonAsStr ctJ) },
          okMsgEnv ("File '" ++ fp ++ "' written successfully."))
      else
        (w, errEnv ("[Errno 2] No such file or directory: '" ++ target ++ "'"))

/-- `get_wordpress_option` (`app.py` lines 260-270): every call runs
`wp option get <name> --format=json` — there is no cache in front of it. -/
def get_wordpress_option (w : World) (data : Json) : World × Json :=
  match get_tool_arg data "option_name" .null true (some .str) with
  | .error e => (w, errEnv e)
  | .ok nameJ =>
    let (w', r) := run_wp_cli_command w
      ["option", "get", jsonAsStr nameJ, "--format=json"] true
    match r with
    | .error e => (w', errEnv e)
    | .ok o =>
      (w', .obj [("status", .str "success"), ("option_name", nameJ),
        ("value", match o with | .json j => j | .text s => .str s)])

/-- `update_wordpress_option` (`app.py` lines 273-294): dict/list values are
serialized with `json.dumps` and passed with `--format=json`, anything else
is passed through `str()`. -/
def update_wordpress_option (w : World) (data : Json) : World × Json :=
  match get_tool_arg data "option_name" .null true (some .str) with
  | .error e => (w, errEnv e)
  | .ok nameJ =>
  match get_tool_arg data "option_value" .null true none with
  | .error e => (w, errEnv e)
  | .ok valueJ =>
    let cmdArgs := ["option", "update", jsonAsStr nameJ] ++
      (match valueJ with
       | .obj _ => [w.dumps valueJ, "--format=json"]
       | .arr _ => [w.dumps valueJ, "--format=json"]
       | v => [pyScalarStr v])
    let (w', r) := run_wp_cli_command w cmdArgs false
    match r with
    | .error e => (w', errEnv e)
    | .ok o => (w', okMsgEnv (wpText o))

/-- `install_wordpress_theme` (`app.py` lines 297-310): optional `version`
appended only when truthy. -/
def install_wordpress_theme (w : World) (data : Json) : World × Json :=
  match get_tool_arg data "theme_slug" .null true (some .str) with
  | .error e => (w, errEnv e)
  | .ok slugJ =>
  match get_tool_arg data "version" .null false (some .str) with
  | .error e => (w, errEnv e)
  | .ok versionJ =>
    let cmdArgs := ["theme", "install", jsonAsStr slugJ] ++
      (if jsonTruthy versionJ then ["--version", jsonAsStr versionJ] else [])
    let (w', r) := run_wp_cli_command w cmdArgs false
    match r with
    | .error e => (w', errEnv e)
    | .ok o => (w', okMsgEnv (wpText o))

/-- `activate_wordpress_theme` (`app.py` lines 312-321). -/
def activate_wordpress_theme (w : World) (data : Json) : World × Json :=
  match get_tool_arg data "theme_slug" .null true (some .str) with
  | .error e => (w, errEnv e)
  | .ok slugJ =>
    let (w', r) := run_wp_cli_command w ["theme", "activate", jsonAsStr slugJ] false
    match r with
    | .error e => (w', errEnv e)
    | .ok o => (w', okMsgEnv (wpText o))

/-- `list_wordpress_themes` (`app.py` lines 323-331). -/
def list_wordpress_themes (w : World) (_data : Json) : World × Json :=
  let (w', r) := run_wp_cli_command w ["theme", "list", "--format=json"] true
  match r with
  | .error e => (w', errEnv e)
  | .ok o => (w', okDataEnv (match o with | .json j => j | .text s => .str s))

/-- `get_active_wordpress_theme` (`app.py` lines 333-342):
`themes[0] if themes else None` on the decoded value. -/
def get_active_wordpress_theme (w : World) (_data : Json) : World × Json :=
  let (w', r) := run_wp_cli_command w
    ["theme", "list", "--status=active", "--format=json"] true
  match r with
  | .error e => (w', errEnv e)
  | .ok o =>
    let themes := match o with | .json j => j | .text s => .str s
    if jsonTruthy themes then
      match themes with
      | .arr (x :: _) => (w', okDataEnv x)
      | .arr [] => (w', okDataEnv .null)
      | .str s =>
        match s.data with
        | c :: _ => (w', okDataEnv (.str ⟨[c]⟩))
        | [] => (w', okDataEnv .null)
      | .obj _ => (w', errEnv "0")
      | .num _ => (w', errEnv "'int' object is not subscriptable")
      | .bool _ => (w', errEnv "'bool' object is not subscriptable")
      | .null => (w', okDataEnv .null)
    else (w', okDataEnv .null)

/-- `delete_wordpress_theme` (`app.py` lines 345-354). -/
def delete_wordpress_theme (w : World) (data : Json) : World × Json :=
  match get_tool_arg data "theme_slug" .null true (some .str) with
  | .error e => (w, errEnv e)
  | .ok slugJ =>
    let (w', r) := run_wp_cli_command w ["theme", "delete", jsonAsStr slugJ] false
    match r with
    | .error e => (w', errEnv e)
    | .ok o => (w', okMsgEnv (wpText o))

/-- `append_to_file` (`app.py` lines 357-374): an `open(target, 'a')` append
with the same validation as `edit_file`. -/
def append_to_file (w : World) (data : Json) : World × Json :=
  match get_tool_arg data "file_path" .null true (some .str) with
  | .error e => (w, errEnv e)
  | .ok fpJ =>
  match get_tool_arg data "content" .null true (some .str) with
  | .error e => (w, errEnv e)
  | .ok ctJ =>
    let fp := jsonAsStr fpJ
    match validate_file_path fp with
    | .error e => (w, errEnv e)
    | .ok target =>
      if w.fs.isDir target then
        (w, errEnv ("[Errno 21] Is a directory: '" ++ target ++ "'"))
      else if w.fs.isFile target || w.fs.isDir (dirname target) then
        ({ w with fs := w.fs.appendFile target (jsonAsStr ctJ) },
          okMsgEnv ("Content appended to file '" ++ fp ++ "' successfully."))
      else
        (w, errEnv ("[Errno 2] No such file or directory: '" ++ target ++ "'"))

/-- `install_wordpress_plugin` (`app.py` lines 377-390). -/
def install_wordpress_plugin (w : World) (data : Json) : World × Json :=
  match get_tool_arg data "plugin_slug" .null true (some .str) with
  | .error e => (w, errEnv e)
  | .ok slugJ =>
  match get_tool_arg data "version" .null false (some .str) with
  | .error e => (w, errEnv e)
  | .ok versionJ =>
    let cmdArgs := ["plugin", "install", jsonAsStr slugJ] ++
      (if jsonTruthy versionJ then ["--version", jsonAsStr versionJ] else [])
    let (w', r) := run_wp_cli_command w cmdArgs false
    match r with
    | .error e => (w', errEnv e)
    | .ok o => (w', okMsgEnv (wpText o))

/-- `deactivate_wordpress_plugin` (`app.py` lines 393-402). -/
def deactivate_wordpress_plugin (w : World) (data : Json) : World × Json :=
  match get_tool_arg data "plugin_slug" .null true (some .str) with
  | .error e => (w, errEnv e)
  | .ok slugJ =>
    let (w', r) := run_wp_cli_command w ["plugin", "deactivate", jsonAsStr slugJ] false
    match r with
    | .error e => (w', errEnv e)
    | .ok o => (w', okMsgEnv (wpText o))

/-- `delete_wordpress_plugin` (`app.py` lines 405-414). -/
def delete_wordpress_plugin (w : World) (data : Json) : World × Json :=
  match get_tool_arg data "plugin_slug" .null true (some .str) with
  | .error e => (w, errEnv e)
  | .ok slugJ =>
    let (w', r) := run_wp_cli_command w ["plugin", "delete", jsonAsStr slugJ] false
    match r with
    | .error e => (w', errEnv e)
    | .ok o => (w', okMsgEnv (wpText o))

/-! ## Tool registry and dispatcher (`app.py` lines 417-470) -/

/-- The `TOOLS` dict: tool name to handler. -/
def TOOLS (name : String) : Option (World → Json → World × Json) :=
  if name = "get_system_information" then some get_system_information
  else if name = "create_wordpress_post" then some create_wordpress_post
  else if name = "activate_wordpress_plugin" then some activate_wordpress_plugin
  else if name = "read_file" then some read_file
  else if name = "edit_file" then some edit_file
  else if name = "get_wordpress_option" then some get_wordpress_option
  else if name = "update_wordpress_option" then some update_wordpress_option
  else if name = "install_wordpress_theme" then some install_wordpress_theme
  else if name = "activate_wordpress_theme" then some activate_wordpress_theme
  else if name = "list_wordpress_themes" then some list_wordpress_themes
  else if name = "get_active_wordpress_theme" then some get_active_wordpress_theme
  else if name = "delete_wordpress_theme" then some delete_wordpress_theme
  else if name = "append_to_file" then some append_to_file
  else if name = "install_wordpress_plugin" then some install_wordpress_plugin
  else if name = "deactivate_wordpress_plugin" then some deactivate_wordpress_plugin
  else if name = "delete_wordpress_plugin" then some delete_wordpress_plugin
  else none

/-- Dispatch on the extracted `tool` field: falsy value means the field is
missing (line 453), a registered string name runs the handler and wraps its
envelope in HTTP 200, an unknown string (or non-string scalar, which never
matches a dict key) yields 404; a dict or list tool value is unhashable and
the resulting `TypeError` is caught by the catch-all as a 500. -/
def dispatchTool (w : World) (fields : List (String × Json)) (toolJ : Json) :
    World × Nat × Json :=
  if jsonTruthy toolJ then
    match toolJ with
    | .str name =>
      match TOOLS name with
      | some f =>
        let r := f w (.obj fields)
        (r.1, 200, r.2)
      | none => (w, 404, errEnv ("Unknown tool: " ++ name))
    | .num n => (w, 404, errEnv ("Unknown tool: " ++ toString n))
    | .bool b => (w, 404, errEnv ("Unknown tool: " ++ (if b then "True" else "False")))
    | other =>
      (w, 500, errEnv ("An internal error occurred: unhashable type: '"
        ++ jsonTypeName other ++ "'"))
  else (w, 400, errEnv "Missing 'tool' field in request")

/-- The body of `handle_a2a_task` once a JSON value has been parsed: a falsy
body is rejected as an invalid payload, a non-dict body makes `data.get`
raise `AttributeError`, which the catch-all turns into a 500. -/
def handleData (w : World) (data : Json) : World × Nat × Json :=
  if jsonTruthy data then
    match data with
    | .obj fields => dispatchTool w fields ((pyDictGet fields "tool").getD .null)
    | other =>
      (w, 500, errEnv ("An internal error occurred: '" ++ jsonTypeName other
        ++ "' object has no attribute 'get'"))
  else (w, 400, errEnv "Invalid JSON payload")

/-- `handle_a2a_task` (`app.py` lines 440-470), after authentication: `none`
stands for a body `flask.request.get_json()` could not parse (caught and
answered with 400). -/
def handle_a2a_task (w : World) (body : Option Json) : World × Nat × Json :=
  match body with
  | none => (w, 400, errEnv "Invalid JSON payload")
  | some data => handleData w data

/-- Python truthiness of the configured key / presented header
(`if not A2A_API_KEY`, `if not api_key`): absent or empty means falsy. -/
def pyTruthyOptStr : Option String → Bool
  | none => false
  | some s => !s.isEmpty

/-- `require_api_key` wrapping `handle_a2a_task` (`app.py` lines 75-87,
438-439): with no key configured the request passes through unauthenticated;
otherwise a missing, empty, or mismatching `X-API-KEY` header is answered
with the 401 envelope before the body is ever touched. -/
def handleRequest (apiKeyCfg : Option String) (w : World) (header : Option String)
    (body : Option Json) : World × Nat × Json :=
  if pyTruthyOptStr apiKeyCfg then
    if !pyTruthyOptStr header || header ≠ apiKeyCfg then
      (w, 401, errEnv "Unauthorized: Invalid or missing API Key")
    else handle_a2a_task w body
  else handle_a2a_task w body

/-- Run `run_wp_cli_command` with the same arguments `n` times in sequence,
collecting the outcomes — the shape of a client retrying a failing command
(used to examine the claimed circuit breaker). -/
def runRepeat (w : World) (args : List String) (dj : Bool) : Nat → World × List (Except String WpOut)
  | 0 => (w, [])
  | n + 1 =>
    let (w', r) := run_wp_cli_command w args dj
    let (w'', rs) := runRepeat w' args dj n
    (w'', r :: rs)

/-! ## Projections on envelopes and concrete scenario states -/

/-- The `status` field of a result envelope. -/
def envStatus (j : Json) : String :=
  match j with
  | .obj fields =>
    match pyDictGet fields "status" with
    | some (.str s) => s
    | _ => ""
  | _ => ""

/-- The `message` field of a result envelope. -/
def envMessage (j : Json) : String :=
  match j with
  | .obj fields =>
    match pyDictGet fields "message" with
    | some (.str s) => s
    | _ => ""
  | _ => ""

/-- A sandbox containing one configuration file. -/
def baseFS : FS := ⟨["/var/www/html"], [("/var/www/html/wp-config.php", "old")]⟩

/-- A sandbox whose root directory is empty. -/
def emptyFS : FS := ⟨["/var/www/html"], []⟩

/-- A world whose external command always fails with stderr `boom`. -/
def failWorld : World :=
  ⟨baseFS, fun _ _ => ⟨1, "", "boom"⟩, fun _ => none, fun _ => "", []⟩

/-- A world whose external command always succeeds printing the JSON string
`"hello"`, with a parser that recognizes exactly that output. -/
def optWorld : World :=
  ⟨emptyFS, fun _ _ => ⟨0, "\"hello\"", ""⟩,
    fun s => if s = "\"hello\"" then some (.str "hello") else none,
    fun _ => "", []⟩

/-- Request overwriting the existing configuration file. -/
def c2req : Json :=
  .obj [("args", .obj [("file_path", .str "wp-config.php"), ("content", .str "new")])]

/-- Request for `create_wordpress_post` with an empty argument mapping. -/
def c4req : Json :=
  .obj [("tool", .str "create_wordpress_post"), ("args", .obj [])]

/-- Request writing a file whose extension is in no plausible allow-list. -/
def c5req : Json :=
  .obj [("args", .obj [("file_path", .str "evil.xyz123"), ("content", .str "x")])]

/-- Request writing `note.<ext>` for an arbitrary extension. -/
def c5reqFor (ext : String) : Json :=
  .obj [("args", .obj [("file_path", .str ("note." ++ ext)), ("content", .str "x")])]

/-- Request reading the option named `s`. -/
def c6reqFor (s : String) : Json :=
  .obj [("args", .obj [("option_name", .str s)])]

/-- Request writing to a path whose parent directory does not exist. -/
def c9req : Json :=
  .obj [("args", .obj [("file_path", .str "newdir/file.txt"), ("content", .str "x")])]

/-- Request writing a fresh file directly under the sandbox root. -/
def c9okReq : Json :=
  .obj [("args", .obj [("file_path", .str "newfile.txt"), ("content", .str "x")])]

/-! ## Helper lemmas -/

/-- Every call of `run_wp_cli_command` appends exactly one invocation to the
log, whatever the history and outcome. -/
theorem run_wp_cli_calls (w : World) (args : List String) (dj : Bool) :
    (run_wp_cli_command w args dj).1.calls = w.calls ++ [wpArgv args] := by
  unfold run_wp_cli_command
  dsimp only
  split
  · split
    · split
      · rfl
      · split <;> rfl
    · rfl
  · rfl

theorem setPairs_map_fst (l : List (String × String)) (p c : String)
    (h : (fsGet l p).isSome = true) :
    (setPairs l p c).map Prod.fst = l.map Prod.fst := by
  induction l with
  | nil => simp [fsGet] at h
  | cons hd tl ih =>
    obtain ⟨q, d⟩ := hd
    by_cases hq : q = p
    · simp [setPairs, hq]
    · have h' : (fsGet tl p).isSome = true := by
        simpa [fsGet, hq] using h
      simp [setPairs, hq, ih h']

theorem fsGet_setPairs (l : List (String × String)) (p c : String) :
    fsGet (setPairs l p c) p = some c := by
  induction l with
  | nil => simp [setPairs, fsGet]
  | cons hd tl ih =>
    obtain ⟨q, d⟩ := hd
    by_cases hq : q = p
    · simp [setPairs, fsGet, hq]
    · simp [setPairs, fsGet, hq, ih]

/-- Common success path of `edit_file`: once the arguments extract, the path
validates to `target`, `target` is not a directory, and `open(target, 'w')`
can succeed (the file exists or its parent directory does), the handler
replaces the content at `target` in place and reports success — nothing else
in the state changes. -/
theorem edit_file_write (w : World) (data : Json) (fp ct target : String)
    (hfp : get_tool_arg data "file_path" .null true (some .str) = .ok (.str fp))
    (hct : get_tool_arg data "content" .null true (some .str) = .ok (.str ct))
    (hv : validate_file_path fp = .ok target)
    (hnd : w.fs.isDir target = false)
    (hok : (w.fs.isFile target || w.fs.isDir (dirname target)) = true) :
    edit_file w data = ({ w with fs := w.fs.setFile target ct },
      okMsgEnv ("File '" ++ fp ++ "' written successfully.")) := by
  unfold edit_file
  rw [hfp, hct]
  dsimp only [jsonAsStr]
  rw [hv]
  dsimp only
  rw [hnd, hok]
  simp

/-- The invocation log after a `get_wordpress_option` request for option `s`:
exactly one external call is appended, whatever the outcome. -/
theorem get_option_calls (w : World) (s : String) :
    (get_wordpress_option w (c6reqFor s)).1.calls
      = w.calls ++ [wpArgv ["option", "get", s, "--format=json"]] := by
  unfold get_wordpress_option
  rw [show get_tool_arg (c6reqFor s) "option_name" .null true (some .str)
    = .ok (.str s) from rfl]
  dsimp only [jsonAsStr]
  rcases hrun : run_wp_cli_command w ["option", "get", s, "--format=json"] true
    with ⟨w', r⟩
  have hcalls := run_wp_cli_calls w ["option", "get", s, "--format=json"] true
  rw [hrun] at hcalls
  cases r <;> exact hcalls

/-! ## Claim theorems -/

/-- C1: the spec demands that every raw path whose resolved real path is not
the sandbox root or a descendant of it is denied. The code checks
`realpath(...).startswith(SAFE_BASE_PATH)` with no trailing separator, so
the raw path `../htmlevil` resolves to `/var/www/htmlevil` — a sibling of
the root, not under it — yet passes validation (no `PermissionError`), and
the file tools then operate outside the sandbox. The code contradicts its
own docstring (`ensure it's within SAFE_BASE_PATH`) and error message
(`outside the allowed directory`). -/
theorem c1_traversal_bypasses_startswith_check :
    validate_file_path "../htmlevil" = .ok "/var/www/htmlevil"
    ∧ specUnderRoot "/var/www/htmlevil" = false := by
  exact ⟨rfl, rfl⟩

/-- C2 counterexample: the claim says a `write` to an existing file first
produces exactly one backup file holding the old bytes. Overwriting the
existing `wp-config.php` leaves a file table consisting solely of the target
with the new content: no backup file exists and the old bytes are gone. -/
theorem c2_counterexample :
    (edit_file failWorld c2req).1.fs.files = [("/var/www/html/wp-config.php", "new")]
    ∧ (edit_file failWorld c2req).2 = okMsgEnv "File 'wp-config.php' written successfully."
    ∧ ((edit_file failWorld c2req).1.fs.files.all (fun pc => pc.2 != "old")) = true := by
  exact ⟨rfl, rfl, rfl⟩

/-- C3 counterexample: the claim says that after 5 consecutive external
failures the 6th call fails with `CircuitOpenError` without invoking the
external process. Running the same failing command 6 times records 6
external invocations, and the 6th outcome is the ordinary WP-CLI error
built from the process's stderr — no breaker exists. -/
theorem c3_counterexample :
    (runRepeat failWorld ["plugin", "list"] false 6).1.calls.length = 6
    ∧ (runRepeat failWorld ["plugin", "list"] false 6).2.getLast?
        = some (.error "WP-CLI Error: boom")
    ∧ ¬ (runRepeat failWorld ["plugin", "list"] false 6).1.calls.length ≤ 5 := by
  exact ⟨rfl, rfl, by decide⟩

/-- C9 counterexample: the claim says every in-sandbox path that does not yet
exist is created by `edit_file`. A path in a nonexistent subdirectory is
in-sandbox and does not exist, yet `open(..., 'w')` raises
`FileNotFoundError`, the handler returns an error envelope, and no file is
created. -/
theorem c9_counterexample :
    (edit_file failWorld c9req).2
      = errEnv "[Errno 2] No such file or directory: '/var/www/html/newdir/file.txt'"
    ∧ (edit_file failWorld c9req).1.fs.files = baseFS.files
    ∧ envStatus (edit_file failWorld c9req).2 = "error" := by
  exact ⟨rfl, rfl, rfl⟩

/-- C2 amended: `edit_file` on an existing target overwrites it in place —
it validates the path, opens the file in write mode and writes the new
content, creating no backup, no temporary file, performing no rename and no
post-write verification; the set of file paths is unchanged, and the
success envelope is returned. -/
theorem c2_edit_overwrites_in_place (w : World) (data : Json) (fp ct target : String)
    (hfp : get_tool_arg data "file_path" .null true (some .str) = .ok (.str fp))
    (hct : get_tool_arg data "content" .null true (some .str) = .ok (.str ct))
    (hv : validate_file_path fp = .ok target)
    (hnd : w.fs.isDir target = false)
    (hf : w.fs.isFile target = true) :
    edit_file w data = ({ w with fs := w.fs.setFile target ct },
      okMsgEnv ("File '" ++ fp ++ "' written successfully."))
    ∧ (w.fs.setFile target ct).files.map Prod.fst = w.fs.files.map Prod.fst := by
  constructor
  · exact edit_file_write w data fp ct target hfp hct hv hnd (by rw [hf]; rfl)
  · exact setPairs_map_fst w.fs.files target ct hf

/-- C2 witness: overwriting the existing `wp-config.php` in the concrete
world discharges every hypothesis of the amended theorem. -/
theorem c2_witness :
    failWorld.fs.isFile "/var/www/html/wp-config.php" = true
    ∧ (edit_file failWorld c2req
        = ({ failWorld with
              fs := failWorld.fs.setFile "/var/www/html/wp-config.php" "new" },
            okMsgEnv ("File '" ++ "wp-config.php" ++ "' written successfully."))
       ∧ (failWorld.fs.setFile "/var/www/html/wp-config.php" "new").files.map Prod.fst
          = failWorld.fs.files.map Prod.fst) :=
  ⟨rfl, c2_edit_overwrites_in_place failWorld c2req "wp-config.php" "new"
    "/var/www/html/wp-config.php" rfl rfl rfl rfl rfl⟩

/-- C3 amended: `run_wp_cli_command` keeps no breaker state at all — every
call, whatever the history of prior failures, invokes the external process
exactly once (one invocation is appended to the log unconditionally). -/
theorem c3_no_circuit_breaker (w : World) (args : List String) (dj : Bool) :
    (run_wp_cli_command w args dj).1.calls = w.calls ++ [wpArgv args] :=
  run_wp_cli_calls w args dj

/-- C4 counterexample: dispatching `create_wordpress_post` with an empty
argument mapping makes `get_tool_arg` raise
`ValueError("Missing required argument: title")`, but the handler's own
`except Exception` catches it: the caller gets HTTP 200 with the bare
message, not the dispatcher's `Invalid tool arguments:` envelope. -/
theorem c4_counterexample :
    (handle_a2a_task failWorld (some c4req)).2
      = (200, errEnv "Missing required argument: title")
    ∧ pyStartswith (envMessage (handle_a2a_task failWorld (some c4req)).2.2)
        "Invalid tool arguments:" = false := by
  exact ⟨rfl, rfl⟩

/-- C5 counterexample: the claim says a write whose path extension is not in
the configured allow-list fails with `PathDenied`. No allow-list exists:
writing `evil.xyz123` (an extension no allow-list would contain) succeeds
and creates the file. -/
theorem c5_counterexample :
    (edit_file optWorld c5req).2 = okMsgEnv "File 'evil.xyz123' written successfully."
    ∧ (edit_file optWorld c5req).1.fs.files = [("/var/www/html/evil.xyz123", "x")]
    ∧ envStatus (edit_file optWorld c5req).2 = "success" := by
  exact ⟨rfl, rfl, rfl⟩

/-- C6 counterexample: two consecutive identical `get_wordpress_option`
requests invoke the external process twice (the claim allows at most one
invocation inside the TTL window) — there is no cache. -/
theorem c6_counterexample :
    ((get_wordpress_option (get_wordpress_option optWorld (c6reqFor "blogname")).1
        (c6reqFor "blogname")).1).calls.length = 2
    ∧ (get_wordpress_option optWorld (c6reqFor "blogname")).2
        = (get_wordpress_option (get_wordpress_option optWorld (c6reqFor "blogname")).1
            (c6reqFor "blogname")).2
    ∧ ¬ ((get_wordpress_option (get_wordpress_option optWorld (c6reqFor "blogname")).1
          (c6reqFor "blogname")).1).calls.length ≤ 1 := by
  exact ⟨rfl, rfl, by decide⟩

/-- C6 amended: there is no result cache: every `get_wordpress_option`
request runs the external command, so two consecutive identical requests
append exactly two invocations, from any starting state. -/
theorem c6_no_read_cache (w : World) (s : String) :
    ((get_wordpress_option (get_wordpress_option w (c6reqFor s)).1 (c6reqFor s)).1).calls.length
      = w.calls.length + 2 := by
  rw [get_option_calls, get_option_calls]
  simp

/-- C9 amended: `edit_file` on a validated in-sandbox path that does not yet
exist but whose parent directory does exist creates the file with the given
content and returns the success envelope — existence of the target is not a
precondition, but existence of its parent directory is. -/
theorem c9_edit_creates_file (w : World) (data : Json) (fp ct target : String)
    (hfp : get_tool_arg data "file_path" .null true (some .str) = .ok (.str fp))
    (hct : get_tool_arg data "content" .null true (some .str) = .ok (.str ct))
    (hv : validate_file_path fp = .ok target)
    (hnd : w.fs.isDir target = false)
    (hpd : w.fs.isDir (dirname target) = true) :
    edit_file w data = ({ w with fs := w.fs.setFile target ct },
      okMsgEnv ("File '" ++ fp ++ "' written successfully."))
    ∧ (w.fs.setFile target ct).lookupFile target = some ct := by
  constructor
  · exact edit_file_write w data fp ct target hfp hct hv hnd (by rw [hpd]; simp)
  · exact fsGet_setPairs w.fs.files target ct

/-- C9 witness: creating `newfile.txt` under the (existing) sandbox root in
the concrete world discharges every hypothesis of the amended theorem. -/
theorem c9_witness :
    optWorld.fs.isFile "/var/www/html/newfile.txt" = false
    ∧ optWorld.fs.isDir (dirname "/var/www/html/newfile.txt") = true
    ∧ (edit_file optWorld c9okReq
        = ({ optWorld with fs := optWorld.fs.setFile "/var/www/html/newfile.txt" "x" },
            okMsgEnv ("File '" ++ "newfile.txt" ++ "' written successfully."))
       ∧ (optWorld.fs.setFile "/var/www/html/newfile.txt" "x").lookupFile
          "/var/www/html/newfile.txt" = some "x") :=
  ⟨rfl, rfl, c9_edit_creates_file optWorld c9okReq "newfile.txt" "x"
    "/var/www/html/newfile.txt" rfl rfl rfl rfl rfl⟩

/-- C10 counterexample: the empty JSON object is a payload with no `args`
key, yet it is not dispatched the same way as the same payload with
`args: {}` — Python's falsiness of `{}` answers `Invalid JSON payload`,
while `{"args": {}}` is truthy and answers `Missing 'tool' field in
request`. -/
theorem c10_counterexample :
    (handle_a2a_task failWorld (some (.obj []))).2 = (400, errEnv "Invalid JSON payload")
    ∧ (handle_a2a_task failWorld (some (.obj [("args", .obj [])]))).2
        = (400, errEnv "Missing 'tool' field in request")
    ∧ envMessage (handle_a2a_task failWorld (some (.obj []))).2.2
        ≠ envMessage (handle_a2a_task failWorld (some (.obj [("args", .obj [])]))).2.2 := by
  exact ⟨rfl, rfl, by decide⟩

/-- C4 amended: a `ValueError` raised during argument extraction is caught
inside the tool handler itself (every handler wraps its body in
`except Exception`), so for any request naming `create_wordpress_post` whose
argument mapping lacks `title`, the dispatcher returns HTTP 200 with the
handler's envelope carrying the bare `ValueError` text; the dispatcher's
`Invalid tool arguments:` branch is never reached. -/
theorem c4_validation_error_caught_in_handler (w : World) (args : List (String × Json))
    (h : pyDictGet args "title" = none) :
    handle_a2a_task w
        (some (.obj [("tool", .str "create_wordpress_post"), ("args", .obj args)]))
      = (w, 200, errEnv "Missing required argument: title") := by
  have hg : get_tool_arg
      (.obj [("tool", .str "create_wordpress_post"), ("args", .obj args)])
      "title" .null true (some .str)
      = .error "Missing required argument: title" := by
    unfold get_tool_arg
    rw [show requestArgs
      (.obj [("tool", .str "create_wordpress_post"), ("args", .obj args)]) = args from rfl]
    simp only [h]
    rfl
  have hh : create_wordpress_post w
      (.obj [("tool", .str "create_wordpress_post"), ("args", .obj args)])
      = (w, errEnv "Missing required argument: title") := by
    unfold create_wordpress_post
    rw [hg]
  have hd : handle_a2a_task w
      (some (.obj [("tool", .str "create_wordpress_post"), ("args", .obj args)]))
      = ((create_wordpress_post w
          (.obj [("tool", .str "create_wordpress_post"), ("args", .obj args)])).1, 200,
         (create_wordpress_post w
          (.obj [("tool", .str "create_wordpress_post"), ("args", .obj args)])).2) := rfl
  rw [hd, hh]

/-- C4 witness: the concrete empty-args request instantiates the amended
theorem. -/
theorem c4_witness :
    pyDictGet ([] : List (String × Json)) "title" = none
    ∧ handle_a2a_task failWorld
        (some (.obj [("tool", .str "create_wordpress_post"), ("args", .obj [])]))
      = (failWorld, 200, errEnv "Missing required argument: title") :=
  ⟨rfl, c4_validation_error_caught_in_handler failWorld [] rfl⟩

/-- C7: exit-code and JSON-decoding semantics of `run_wp_cli_command`:
a nonzero exit yields the WP-CLI error carrying stripped stderr, falling
back to stripped stdout when stderr strips to empty (the `pyOr`); on a zero
exit with JSON decoding requested, non-empty unparseable stdout yields the
decode error, while empty stdout decodes to the empty mapping `{}` rather
than an error. -/
theorem c7_exit_code_and_json_semantics (w : World) (args : List String) :
    ((w.exec w.calls.length (wpArgv args)).returncode ≠ 0 → ∀ dj,
      (run_wp_cli_command w args dj).2
        = .error ("WP-CLI Error: "
            ++ pyOr (pyStrip (w.exec w.calls.length (wpArgv args)).stderr)
                    (pyStrip (w.exec w.calls.length (wpArgv args)).stdout)))
    ∧ ((w.exec w.calls.length (wpArgv args)).returncode = 0 →
        pyStrip (w.exec w.calls.length (wpArgv args)).stdout ≠ "" →
        w.parseJson (pyStrip (w.exec w.calls.length (wpArgv args)).stdout) = none →
        (run_wp_cli_command w args true).2
          = .error ("WP-CLI JSON Decode Error: "
              ++ pyStrip (w.exec w.calls.length (wpArgv args)).stdout))
    ∧ ((w.exec w.calls.length (wpArgv args)).returncode = 0 →
        pyStrip (w.exec w.calls.length (wpArgv args)).stdout = "" →
        (run_wp_cli_command w args true).2 = .ok (.json (.obj []))) := by
  refine ⟨?_, ?_, ?_⟩
  · intro hrc dj
    unfold run_wp_cli_command
    rw [if_neg hrc]
  · intro hrc hne hparse
    unfold run_wp_cli_command
    rw [if_pos hrc]
    dsimp only
    rw [if_neg hne, hparse]
    rfl
  · intro hrc hemp
    unfold run_wp_cli_command
    rw [if_pos hrc]
    dsimp only
    rw [if_pos hemp]
    rfl

/-- A world for the C7 decode-error branch: zero exit, unparseable stdout. -/
def badJsonWorld : World :=
  ⟨emptyFS, fun _ _ => ⟨0, "not json", ""⟩, fun _ => none, fun _ => "", []⟩

/-- A world for the C7 empty-stdout branch: zero exit, whitespace stdout. -/
def emptyOutWorld : World :=
  ⟨emptyFS, fun _ _ => ⟨0, "  \n", ""⟩, fun _ => none, fun _ => "", []⟩

/-- C7 witness: the three branches of the semantics theorem at concrete
worlds — a failing command reports `boom`, unparseable output reports the
decode error, empty output decodes to `{}`. -/
theorem c7_witness :
    (run_wp_cli_command failWorld ["core", "version"] false).2
      = .error "WP-CLI Error: boom"
    ∧ (run_wp_cli_command badJsonWorld ["option", "get", "x", "--format=json"] true).2
      = .error "WP-CLI JSON Decode Error: not json"
    ∧ (run_wp_cli_command emptyOutWorld ["option", "get", "x", "--format=json"] true).2
      = .ok (.json (.obj [])) :=
  ⟨(c7_exit_code_and_json_semantics failWorld ["core", "version"]).1 (by decide) false,
   (c7_exit_code_and_json_semantics badJsonWorld ["option", "get", "x", "--format=json"]).2.1
     (by decide) (by decide) rfl,
   (c7_exit_code_and_json_semantics emptyOutWorld
     ["option", "get", "x", "--format=json"]).2.2 (by decide) (by decide)⟩

/-- C8: when an API key is configured (non-empty), every request whose
`X-API-KEY` header is absent, empty, or different from the key is answered
with the 401 unauthorized envelope, with the world unchanged (no tool
handler runs, no external process is invoked) and the response independent
of the request body — malformed bodies, missing tool fields and unknown
tool names included. -/
theorem c8_bad_key_uniform_401 (k : String) (hdr : Option String) (w : World)
    (body : Option Json) (hk : k ≠ "") (hh : hdr ≠ some k) :
    handleRequest (some k) w hdr body
      = (w, 401, errEnv "Unauthorized: Invalid or missing API Key") := by
  unfold handleRequest
  have h1 : pyTruthyOptStr (some k) = true := by
    have : k.isEmpty = false := by
      cases hke : k.isEmpty
      · rfl
      · exact absurd ((String.isEmpty_iff k).mp hke) hk
    simp [pyTruthyOptStr, this]
  rw [h1]
  simp only [if_true]
  cases hdr with
  | none => simp [pyTruthyOptStr]
  | some s =>
    by_cases hs : s = ""
    · subst hs
      rfl
    · have hse : s.isEmpty = false := by
        cases hke : s.isEmpty
        · rfl
        · exact absurd ((String.isEmpty_iff s).mp hke) hs
      have hsk : s ≠ k := fun hEq => hh (by rw [hEq])
      simp [pyTruthyOptStr, hse, hsk]

/-- C8 witness: a wrong key with an unparseable body, and a missing header
with a well-formed body naming an unknown tool, both get the uniform 401. -/
theorem c8_witness :
    handleRequest (some "secret") failWorld (some "wrong") none
      = (failWorld, 401, errEnv "Unauthorized: Invalid or missing API Key")
    ∧ handleRequest (some "secret") failWorld none
        (some (.obj [("tool", .str "nonexistent_tool")]))
      = (failWorld, 401, errEnv "Unauthorized: Invalid or missing API Key") :=
  ⟨c8_bad_key_uniform_401 "secret" (some "wrong") failWorld none
      (by decide) (by decide),
   c8_bad_key_uniform_401 "secret" none failWorld
      (some (.obj [("tool", .str "nonexistent_tool")])) (by decide) (by decide)⟩

theorem pyDictGet_nil (k : String) : pyDictGet [] k = none := rfl

theorem pyDictGet_cons (a : String) (b : Json) (tl : List (String × Json)) (k : String) :
    pyDictGet ((a, b) :: tl) k = if a = k then some b else pyDictGet tl k := rfl

theorem pyDictGet_append_none {l₁ : List (String × Json)} {k : String}
    (l₂ : List (String × Json)) (h : pyDictGet l₁ k = none) :
    pyDictGet (l₁ ++ l₂) k = pyDictGet l₂ k := by
  induction l₁ with
  | nil => rfl
  | cons hd tl ih =>
    obtain ⟨a, b⟩ := hd
    rw [pyDictGet_cons] at h
    rw [List.cons_append, pyDictGet_cons]
    by_cases ha : a = k
    · rw [if_pos ha] at h
      exact absurd h (by simp)
    · rw [if_neg ha] at h
      rw [if_neg ha]
      exact ih h

theorem pyDictGet_append_some {l₁ : List (String × Json)} {k : String} {v : Json}
    (l₂ : List (String × Json)) (h : pyDictGet l₁ k = some v) :
    pyDictGet (l₁ ++ l₂) k = some v := by
  induction l₁ with
  | nil => exact absurd h (by rw [pyDictGet_nil]; simp)
  | cons hd tl ih =>
    obtain ⟨a, b⟩ := hd
    rw [pyDictGet_cons] at h
    rw [List.cons_append, pyDictGet_cons]
    by_cases ha : a = k
    · rw [if_pos ha] at h
      rw [if_pos ha]
      exact h
    · rw [if_neg ha] at h
      rw [if_neg ha]
      exact ih h

theorem requestArgs_obj (fields : List (String × Json)) :
    requestArgs (.obj fields)
      = (match pyDictGet fields "args" with
         | some (.obj a) => a
         | _ => []) := rfl

/-- Adding `"args": {}` to a payload that has no `args` key leaves argument
extraction pointwise unchanged: in both shapes `data.get('args', {})` yields
the empty mapping. -/
theorem get_tool_arg_add_empty_args (fields : List (String × Json))
    (h : pyDictGet fields "args" = none) :
    get_tool_arg (.obj fields)
      = get_tool_arg (.obj (fields ++ [("args", .obj [])])) := by
  have e1 : requestArgs (.obj fields) = [] := by
    rw [requestArgs_obj, h]
  have e2 : requestArgs (.obj (fields ++ [("args", .obj [])])) = [] := by
    rw [requestArgs_obj, pyDictGet_append_none _ h]
    rfl
  funext n df rq ty
  unfold get_tool_arg
  rw [e1, e2]

/-- Every registered handler consumes the request only through
`get_tool_arg`, so adding `"args": {}` to an args-less payload does not
change its behavior. -/
theorem handler_add_empty_args {name : String} (fields : List (String × Json))
    (h : pyDictGet fields "args" = none) (w : World)
    {f : World → Json → World × Json} (hf : TOOLS name = some f) :
    f w (.obj fields) = f w (.obj (fields ++ [("args", .obj [])])) := by
  have hg := get_tool_arg_add_empty_args fields h
  unfold TOOLS at hf
  by_cases h0 : name = "get_system_information"
  · rw [if_pos h0] at hf
    injection hf with heq
    subst heq
    rfl
  · rw [if_neg h0] at hf
    by_cases h1 : name = "create_wordpress_post"
    · rw [if_pos h1] at hf
      injection hf with heq
      subst heq
      unfold create_wordpress_post
      rw [hg]
    · rw [if_neg h1] at hf
      by_cases h2 : name = "activate_wordpress_plugin"
      · rw [if_pos h2] at hf
        injection hf with heq
        subst heq
        unfold activate_wordpress_plugin
        rw [hg]
      · rw [if_neg h2] at hf
        by_cases h3 : name = "read_file"
        · rw [if_pos h3] at hf
          injection hf with heq
          subst heq
          unfold read_file
          rw [hg]
        · rw [if_neg h3] at hf
          by_cases h4 : name = "edit_file"
          · rw [if_pos h4] at hf
            injection hf with heq
            subst heq
            unfold edit_file
            rw [hg]
          · rw [if_neg h4] at hf
            by_cases h5 : name = "get_wordpress_option"
            · rw [if_pos h5] at hf
              injection hf with heq
              subst heq
              unfold get_wordpress_option
              rw [hg]
            · rw [if_neg h5] at hf
              by_cases h6 : name = "update_wordpress_option"
              · rw [if_pos h6] at hf
                injection hf with heq
                subst heq
                unfold update_wordpress_option
                rw [hg]
              · rw [if_neg h6] at hf
                by_cases h7 : name = "install_wordpress_theme"
                · rw [if_pos h7] at hf
                  injection hf with heq
                  subst heq
                  unfold install_wordpress_theme
                  rw [hg]
                · rw [if_neg h7] at hf
                  by_cases h8 : name = "activate_wordpress_theme"
                  · rw [if_pos h8] at hf
                    injection hf with heq
                    subst heq
                    unfold activate_wordpress_theme
                    rw [hg]
                  · rw [if_neg h8] at hf
                    by_cases h9 : name = "list_wordpress_themes"
                    · rw [if_pos h9] at hf
                      injection hf with heq
                      subst heq
                      rfl
                    · rw [if_neg h9] at hf
                      by_cases h10 : name = "get_active_wordpress_theme"
                      · rw [if_pos h10] at hf
                        injection hf with heq
                        subst heq
                        rfl
                      · rw [if_neg h10] at hf
                        by_cases h11 : name = "delete_wordpress_theme"
                        · rw [if_pos h11] at hf
                          injection hf with heq
                          subst heq
                          unfold delete_wordpress_theme
                          rw [hg]
                        · rw [if_neg h11] at hf
                          by_cases h12 : name = "append_to_file"
                          · rw [if_pos h12] at hf
                            injection hf with heq
                            subst heq
                            unfold append_to_file
                            rw [hg]
                          · rw [if_neg h12] at hf
                            by_cases h13 : name = "install_wordpress_plugin"
                            · rw [if_pos h13] at hf
                              injection hf with heq
                              subst heq
                              unfold install_wordpress_plugin
                              rw [hg]
                            · rw [if_neg h13] at hf
                              by_cases h14 : name = "deactivate_wordpress_plugin"
                              · rw [if_pos h14] at hf
                                injection hf with heq
                                subst heq
                                unfold deactivate_wordpress_plugin
                                rw [hg]
                              · rw [if_neg h14] at hf
                                by_cases h15 : name = "delete_wordpress_plugin"
                                · rw [if_pos h15] at hf
                                  injection hf with heq
                                  subst heq
                                  unfold delete_wordpress_plugin
                                  rw [hg]
                                · rw [if_neg h15] at hf
                                  exact Option.noConfusion hf

/-- C10 amended: restricted to non-empty JSON-object payloads (the empty
object is falsy in Python and short-circuits as `Invalid JSON payload`), a
payload with no `args` key is dispatched exactly like the same payload with
`args` set to the empty mapping. -/
theorem c10_missing_args_equals_empty (w : World) (fields : List (String × Json))
    (hne : fields ≠ []) (hargs : pyDictGet fields "args" = none) :
    handle_a2a_task w (some (.obj fields))
      = handle_a2a_task w (some (.obj (fields ++ [("args", .obj [])]))) := by
  have t1 : jsonTruthy (.obj fields) = true := by
    cases fields with
    | nil => exact absurd rfl hne
    | cons a b => rfl
  have t2 : jsonTruthy (.obj (fields ++ [("args", .obj [])])) = true := by
    cases fields <;> rfl
  have htool : pyDictGet (fields ++ [("args", .obj [])]) "tool" = pyDictGet fields "tool" := by
    cases hx : pyDictGet fields "tool" with
    | some v => exact pyDictGet_append_some _ hx
    | none => rw [pyDictGet_append_none _ hx]; rfl
  show handleData w (.obj fields) = handleData w (.obj (fields ++ [("args", .obj [])]))
  unfold handleData
  rw [t1, t2]
  dsimp only
  rw [htool]
  unfold dispatchTool
  cases htj : (pyDictGet fields "tool").getD .null with
  | str name =>
    cases ht : jsonTruthy (.str name) with
    | false => rfl
    | true =>
      simp only [reduceIte]
      cases hT : TOOLS name with
      | none => rfl
      | some f =>
        have hcongr := handler_add_empty_args fields hargs w hT
        dsimp only
        rw [hcongr]
  | null => rfl
  | bool b => cases b <;> rfl
  | num n => cases ht : jsonTruthy (.num n) <;> rfl
  | arr xs => cases xs <;> rfl
  | obj fs => cases fs <;> rfl

/-- C10 witness: a payload naming `read_file` with no `args` key dispatches
identically to the same payload with an empty `args` mapping. -/
theorem c10_witness :
    ([("tool", Json.str "read_file")] : List (String × Json)) ≠ []
    ∧ handle_a2a_task failWorld (some (.obj [("tool", .str "read_file")]))
      = handle_a2a_task failWorld
          (some (.obj ([("tool", Json.str "read_file")] ++ [("args", .obj [])]))) :=
  ⟨by simp, c10_missing_args_equals_empty failWorld [("tool", .str "read_file")]
    (by simp) rfl⟩

/-! ## Path-resolution lemmas for a plain single-segment name -/

theorem mk_data (s : String) : String.mk s.data = s := by
  cases s
  rfl

theorem stripSeps_no_sep (l : List Char) (h : ∀ c ∈ l, c ≠ '/' ∧ c ≠ '\\') :
    stripSeps l = l := by
  cases l with
  | nil => rfl
  | cons c cs =>
    have hc := h c (List.mem_cons_self c cs)
    unfold stripSeps
    rw [if_neg]
    rintro (h1 | h1)
    · exact hc.1 h1
    · exact hc.2 h1

theorem splitSegs_cons (c : Char) (cs : List Char) :
    splitSegs (c :: cs)
      = if c = '/' then [] :: splitSegs cs
        else match splitSegs cs with
             | [] => [[c]]
             | s :: rest => (c :: s) :: rest := rfl

theorem splitSegs_ne_nil (l : List Char) : splitSegs l ≠ [] := by
  cases l with
  | nil => simp [splitSegs]
  | cons c cs =>
    rw [splitSegs_cons]
    by_cases hc : c = '/'
    · rw [if_pos hc]
      simp
    · rw [if_neg hc]
      cases hs : splitSegs cs <;> simp

theorem splitSegs_no_slash (l : List Char) (h : ∀ c ∈ l, c ≠ '/') :
    splitSegs l = [l] := by
  induction l with
  | nil => rfl
  | cons c cs ih =>
    have hc := h c (List.mem_cons_self c cs)
    have ihh := ih (fun x hx => h x (List.mem_cons_of_mem c hx))
    rw [splitSegs_cons, if_neg hc, ihh]

theorem splitSegs_append (a b : List Char) :
    splitSegs (a ++ '/' :: b) = splitSegs a ++ splitSegs b := by
  induction a with
  | nil =>
    rw [List.nil_append, splitSegs_cons, if_pos rfl]
    rfl
  | cons c cs ih =>
    rw [List.cons_append, splitSegs_cons, splitSegs_cons, ih]
    by_cases hc : c = '/'
    · rw [if_pos hc, if_pos hc]
      rfl
    · rw [if_neg hc, if_neg hc]
      cases hs : splitSegs cs with
      | nil => exact absurd hs (splitSegs_ne_nil cs)
      | cons s rest => rfl

theorem normLoop_nil (acc : List (List Char)) : normLoop acc [] = acc := rfl

theorem normLoop_cons (acc : List (List Char)) (seg : List Char) (rest : List (List Char)) :
    normLoop acc (seg :: rest)
      = if seg = [] ∨ seg = ['.'] then normLoop acc rest
        else if seg ≠ ['.', '.'] then normLoop (acc ++ [seg]) rest
        else if acc = [] ∨ acc.getLast? = some ['.', '.'] then normLoop (acc ++ [seg]) rest
        else normLoop acc.dropLast rest := rfl

theorem realLoop_nil (acc : List (List Char)) : realLoop acc [] = acc := rfl

theorem realLoop_cons (acc : List (List Char)) (seg : List Char) (rest : List (List Char)) :
    realLoop acc (seg :: rest)
      = if seg = [] ∨ seg = ['.'] then realLoop acc rest
        else if seg = ['.', '.'] then realLoop acc.dropLast rest
        else realLoop (acc ++ [seg]) rest := rfl

theorem realLoop_append (acc : List (List Char)) (l₁ l₂ : List (List Char)) :
    realLoop acc (l₁ ++ l₂) = realLoop (realLoop acc l₁) l₂ := by
  induction l₁ generalizing acc with
  | nil => rfl
  | cons s ss ih =>
    rw [List.cons_append, realLoop_cons, realLoop_cons]
    by_cases h1 : s = [] ∨ s = ['.']
    · rw [if_pos h1, if_pos h1, ih]
    · rw [if_neg h1, if_neg h1]
      by_cases h2 : s = ['.', '.']
      · rw [if_pos h2, if_pos h2, ih]
      · rw [if_neg h2, if_neg h2, ih]

theorem isPrefixOf_self_append (l m : List Char) : l.isPrefixOf (l ++ m) = true := by
  induction l with
  | nil => simp [List.isPrefixOf]
  | cons c cs ih => simp [List.isPrefixOf, ih]

theorem dropWhile_append_all {p : Char → Bool} (l₁ l₂ : List Char)
    (h : ∀ c ∈ l₁, p c = true) :
    (l₁ ++ l₂).dropWhile p = l₂.dropWhile p := by
  induction l₁ with
  | nil => rfl
  | cons c cs ih =>
    rw [List.cons_append, List.dropWhile_cons, if_pos (h c (List.mem_cons_self c cs))]
    exact ih (fun x hx => h x (List.mem_cons_of_mem c hx))

theorem normpathPosix_single (n : String) (hne : n.data ≠ [])
    (hslash : ∀ c ∈ n.data, c ≠ '/') (hd1 : n.data ≠ ['.']) (hd2 : n.data ≠ ['.', '.']) :
    normpathPosix n = n := by
  have h0 : splitSegs n.data = [n.data] := splitSegs_no_slash n.data hslash
  have h1 : normLoop [] [n.data] = [n.data] := by
    rw [normLoop_cons, if_neg (by rintro (h | h); exacts [hne h, hd1 h]),
      if_pos hd2, normLoop_nil]
    rfl
  unfold normpathPosix
  rw [h0, h1]
  show (if n.data = [] then ("." : String) else ⟨n.data⟩) = n
  rw [if_neg hne]

/-- The resolved path of a single-segment name containing no separators and
not shaped like `.` or `..`: it lands directly under the sandbox root and
passes the validator whatever its extension is. -/
theorem validate_plain_name (n : String) (hne : n.data ≠ [])
    (hsep : ∀ c ∈ n.data, c ≠ '/' ∧ c ≠ '\\')
    (hd1 : n.data ≠ ['.']) (hd2 : n.data ≠ ['.', '.']) :
    validate_file_path n = .ok (SAFE_BASE_PATH ++ "/" ++ n) := by
  have hslash : ∀ c ∈ n.data, c ≠ '/' := fun c hc => (hsep c hc).1
  have hstrip : (⟨stripSeps n.data⟩ : String) = n := by
    rw [stripSeps_no_sep n.data hsep]
  have hnorm : normpathPosix n = n := normpathPosix_single n hne hslash hd1 hd2
  have hdata : (SAFE_BASE_PATH ++ "/" ++ n).data = SAFE_BASE_PATH.data ++ '/' :: n.data := by
    rw [String.data_append, String.data_append]
    simp [List.append_assoc]
  have hsplit2 : splitSegs (SAFE_BASE_PATH ++ "/" ++ n).data
      = [[], ['v', 'a', 'r'], ['w', 'w', 'w'], ['h', 't', 'm', 'l']] ++ [n.data] := by
    rw [hdata, splitSegs_append, splitSegs_no_slash n.data hslash]
    rfl
  have hreal : realpathNoSymlinks (SAFE_BASE_PATH ++ "/" ++ n) = SAFE_BASE_PATH ++ "/" ++ n := by
    unfold realpathNoSymlinks
    rw [hsplit2, realLoop_append]
    rw [show realLoop [] [[], ['v', 'a', 'r'], ['w', 'w', 'w'], ['h', 't', 'm', 'l']]
        = [['v', 'a', 'r'], ['w', 'w', 'w'], ['h', 't', 'm', 'l']] from rfl]
    rw [realLoop_cons, if_neg (by rintro (h | h); exacts [hne h, hd1 h]),
      if_neg hd2, realLoop_nil]
    have hjoin : ('/' :: joinSegs ([['v', 'a', 'r'], ['w', 'w', 'w'], ['h', 't', 'm', 'l']]
        ++ [n.data])) = (SAFE_BASE_PATH ++ "/" ++ n).data := by
      rw [hdata]
      rfl
    rw [hjoin]
  have hstart : pyStartswith (SAFE_BASE_PATH ++ "/" ++ n) SAFE_BASE_PATH = true := by
    unfold pyStartswith
    rw [hdata]
    exact isPrefixOf_self_append _ _
  unfold validate_file_path
  rw [hstrip, hnorm]
  dsimp only
  rw [hreal, hstart]
  rfl

/-- `os.path.dirname` of a single-segment name joined under the root is the
root itself. -/
theorem dirname_root_single (n : String) (hslash : ∀ c ∈ n.data, c ≠ '/') :
    dirname (SAFE_BASE_PATH ++ "/" ++ n) = SAFE_BASE_PATH := by
  have hdata : (SAFE_BASE_PATH ++ "/" ++ n).data = SAFE_BASE_PATH.data ++ '/' :: n.data := by
    rw [String.data_append, String.data_append]
    simp [List.append_assoc]
  have hp : ∀ c ∈ n.data.reverse, (c != '/') = true := by
    intro c hc
    exact bne_iff_ne.mpr (hslash c (List.mem_reverse.mp hc))
  unfold dirname
  rw [hdata]
  rw [show (SAFE_BASE_PATH.data ++ '/' :: n.data).reverse
      = n.data.reverse ++ '/' :: SAFE_BASE_PATH.data.reverse from by simp]
  rw [dropWhile_append_all _ _ hp]
  rw [show List.dropWhile (fun c => c != '/') ('/' :: SAFE_BASE_PATH.data.reverse)
      = '/' :: SAFE_BASE_PATH.data.reverse from by rw [List.dropWhile_cons]; simp]
  rw [show ('/' :: SAFE_BASE_PATH.data.reverse).reverse
      = SAFE_BASE_PATH.data ++ ['/'] from by simp]
  rfl

/-- C5: no extension allow-list exists. For every nonempty alphanumeric
extension, writing `note.<ext>` resolves inside the sandbox, passes
validation, and the write succeeds — the extension is never consulted, so
in particular extensions outside any plausible allow-list are written. -/
theorem c5_no_extension_allowlist (ext : String) (hne : ext.data ≠ [])
    (halnum : ∀ c ∈ ext.data, c.isAlphanum = true) :
    edit_file optWorld (c5reqFor ext)
      = ({ optWorld with
            fs := optWorld.fs.setFile (SAFE_BASE_PATH ++ "/" ++ ("note." ++ ext)) "x" },
         okMsgEnv ("File '" ++ ("note." ++ ext) ++ "' written successfully.")) := by
  have hd : ("note." ++ ext).data = 'n' :: 'o' :: 't' :: 'e' :: '.' :: ext.data := by
    rw [String.data_append]
    rfl
  have hsep : ∀ c ∈ ("note." ++ ext).data, c ≠ '/' ∧ c ≠ '\\' := by
    intro c hc
    rw [hd] at hc
    simp only [List.mem_cons] at hc
    rcases hc with rfl | rfl | rfl | rfl | rfl | hc
    · exact ⟨by decide, by decide⟩
    · exact ⟨by decide, by decide⟩
    · exact ⟨by decide, by decide⟩
    · exact ⟨by decide, by decide⟩
    · exact ⟨by decide, by decide⟩
    · have h := halnum c hc
      constructor
      · intro hEq
        subst hEq
        exact absurd h (by decide)
      · intro hEq
        subst hEq
        exact absurd h (by decide)
  have hne' : ("note." ++ ext).data ≠ [] := by
    rw [hd]
    simp
  have hd1 : ("note." ++ ext).data ≠ ['.'] := by
    rw [hd]
    simp
  have hd2 : ("note." ++ ext).data ≠ ['.', '.'] := by
    rw [hd]
    simp
  have hslash : ∀ c ∈ ("note." ++ ext).data, c ≠ '/' := fun c hc => (hsep c hc).1
  have hv : validate_file_path ("note." ++ ext)
      = .ok (SAFE_BASE_PATH ++ "/" ++ ("note." ++ ext)) :=
    validate_plain_name _ hne' hsep hd1 hd2
  have hneq : (SAFE_BASE_PATH ++ "/" ++ ("note." ++ ext)) ≠ "/var/www/html" := by
    intro hEq
    have hlen := congrArg String.length hEq
    rw [String.length_append, String.length_append] at hlen
    rw [show ("/" : String).length = 1 from rfl] at hlen
    rw [show ("/var/www/html" : String).length = 13 from rfl] at hlen
    rw [show (SAFE_BASE_PATH : String).length = 13 from rfl] at hlen
    omega
  have hnd : optWorld.fs.isDir (SAFE_BASE_PATH ++ "/" ++ ("note." ++ ext)) = false := by
    show (["/var/www/html"] : List String).contains
      (SAFE_BASE_PATH ++ "/" ++ ("note." ++ ext)) = false
    simp [List.contains]
    exact hneq
  have hdir : optWorld.fs.isDir (dirname (SAFE_BASE_PATH ++ "/" ++ ("note." ++ ext))) = true := by
    rw [dirname_root_single _ hslash]
    rfl
  have hok : (optWorld.fs.isFile (SAFE_BASE_PATH ++ "/" ++ ("note." ++ ext))
      || optWorld.fs.isDir (dirname (SAFE_BASE_PATH ++ "/" ++ ("note." ++ ext)))) = true := by
    rw [hdir]
    simp
  exact edit_file_write optWorld (c5reqFor ext) ("note." ++ ext) "x"
    (SAFE_BASE_PATH ++ "/" ++ ("note." ++ ext)) rfl rfl hv hnd hok

/-- C5 witness: the concrete extension `xyz123` instantiates the theorem. -/
theorem c5_witness :
    "xyz123".data ≠ []
    ∧ edit_file optWorld (c5reqFor "xyz123")
      = ({ optWorld with
            fs := optWorld.fs.setFile (SAFE_BASE_PATH ++ "/" ++ ("note." ++ "xyz123")) "x" },
         okMsgEnv ("File '" ++ ("note." ++ "xyz123") ++ "' written successfully.")) :=
  ⟨by decide, c5_no_extension_allowlist "xyz123" (by decide) (by decide)⟩

end WpAgent
